import Mathlib

/-!
Verification of the job-orchestration core of the youtube-horror-automation
repository, as a shallow embedding in Lean 4.

Embedded source files:
  * `main.py`            — `run_automation_cycle` (the Cycle Runner);
  * `scheduler.py`       — `AutomationScheduler.job_wrapper` (run statistics)
                           and `AutomationScheduler.start` (timing loop via
                           APScheduler `IntervalTrigger` + `max_instances=1`);
  * `video_pipeline.py`  — `VideoPipeline.create_complete_video` (the
                           four-stage orchestrator) and the word-count rule of
                           `generate_horror_script`;
  * `youtube_uploader.py`— `YouTubeUploader.upload_video` and
                           `_upload_thumbnail`.

External collaborators (OpenAI calls, ffmpeg, the YouTube API) are modelled as
injected fallible functions `... → Except String α`: `Except.error e` stands
for the Python call raising an exception whose message is `e`.  Random draws
(`random.random()`, `random.randint(2, 5)`) are injected inputs, `random()` as
a rational in `[0, 1)` and `randint` as a natural number in `[2, 5]`.
Timestamps are abstracted away (no claim concerns them).
-/

/-! ### Data model -/

/-- The dict returned by `VideoPipeline.create_complete_video`
(`video_pipeline.py` lines 226-235; the `timestamp` field is dropped). -/
structure VideoData where
  video_path : String
  thumbnail_path : String
  audio_path : String
  title : String
  description : String
  tags : List String
  video_type : String
deriving Repr, DecidableEq

/-- The dict returned by `YouTubeUploader.upload_video`
(`youtube_uploader.py` lines 106-111). -/
structure UploadResult where
  video_id : String
  video_url : String
  title : String
  status : String
deriving Repr, DecidableEq

/-- The dict returned by `run_automation_cycle` (`main.py` lines 69-77 on
success, lines 86-90 on failure).  A key absent from the returned dict is
`none`; the `timestamp` key is dropped. -/
structure CycleResult where
  status : String
  video_id : Option String
  video_url : Option String
  title : Option String
  video_type : Option String
  duration_minutes : Option Nat
  error : Option String
deriving Repr, DecidableEq

/-- Behaviour of the collaborators called by `run_automation_cycle`:
construction of the two components (`main.py` lines 21-22, each `__init__`
may raise, e.g. `YouTubeUploader` raises `ValueError` on missing
credentials), the pipeline orchestration call (line 38) and the upload call
(line 50). -/
structure CycleEnv where
  initPipeline : Except String Unit
  initUploader : Except String Unit
  createCompleteVideo : String → Nat → Except String VideoData
  uploadVideo : String → String → String → List String → String → String →
    String → Except String UploadResult

/-! ### `main.py`: the Cycle Runner -/

/-- `main.py` line 25: `video_type = 'main' if random.random() < 0.7 else
'short'`, with the `random.random()` draw injected as `r`. -/
def selectVideoType (r : ℚ) : String :=
  if r < 7/10 then "main" else "short"

/-- `main.py` lines 28-31: `duration = random.randint(2, 5)` for main videos,
`1` for shorts; the `randint(2, 5)` draw is injected as `d`. -/
def selectDuration (r : ℚ) (d : ℕ) : ℕ :=
  if selectVideoType r = "main" then d else 1

/-- Number of `random.randint` draws the type/duration selection consumes
(`main.py` lines 28-31): one in the `main` branch, none in the `short`
branch. -/
def durationDraws (r : ℚ) : ℕ :=
  if selectVideoType r = "main" then 1 else 0

/-- The dict built at `main.py` lines 86-90 when the `except` clause runs. -/
def failedResult (e : String) : CycleResult :=
  { status := "failed", video_id := none, video_url := none, title := none,
    video_type := none, duration_minutes := none, error := some e }

/-- The dict built at `main.py` lines 69-77 on the success path. -/
def successResult (u : UploadResult) (vt : String) (dur : ℕ) : CycleResult :=
  { status := "success", video_id := some u.video_id,
    video_url := some u.video_url, title := some u.title,
    video_type := some vt, duration_minutes := some dur, error := none }

/-- Instrumented run of one automation cycle: the `CycleResult` together with
the number of orchestration calls (`pipeline.create_complete_video`), the
number of publish calls (`uploader.upload_video`), and the arguments of the
orchestration call when it happens.  Direct translation of the `try` block of
`run_automation_cycle` (`main.py` lines 19-90): the first collaborator that
raises sends control to the `except Exception` clause, which returns the
failure dict. -/
def run_automation_cycle_core (env : CycleEnv) (r : ℚ) (d : ℕ) :
    CycleResult × ℕ × ℕ × Option (String × ℕ) :=
  match env.initPipeline with
  | .error e => (failedResult e, 0, 0, none)
  | .ok _ =>
    match env.initUploader with
    | .error e => (failedResult e, 0, 0, none)
    | .ok _ =>
      match env.createCompleteVideo (selectVideoType r) (selectDuration r d) with
      | .error e =>
        (failedResult e, 1, 0, some (selectVideoType r, selectDuration r d))
      | .ok vd =>
        match env.uploadVideo vd.video_path vd.title vd.description vd.tags
            "24" "public" vd.thumbnail_path with
        | .error e =>
          (failedResult e, 1, 1, some (selectVideoType r, selectDuration r d))
        | .ok u =>
          (successResult u (selectVideoType r) (selectDuration r d), 1, 1,
            some (selectVideoType r, selectDuration r d))

/-- `run_automation_cycle` (`main.py` lines 8-90): the value the function
returns. -/
def run_automation_cycle (env : CycleEnv) (r : ℚ) (d : ℕ) : CycleResult :=
  (run_automation_cycle_core env r d).1

/-- Word-count target computed by `VideoPipeline.generate_horror_script`
(`video_pipeline.py` lines 35-73): for non-short videos
`word_count = duration_minutes * 150` (line 54) is interpolated into the
prompt; the short-video prompt fixes a 150-180 word target independent of the
duration, modelled as `none`. -/
def scriptWordTarget (video_type : String) (duration_minutes : ℕ) :
    Option ℕ :=
  if video_type = "short" then none else some (duration_minutes * 150)

/-- Number of published artifacts a cycle-result dict describes: the success
dict of `main.py` lines 69-77 carries exactly one `video_id`, the failure
dict of lines 86-90 carries none. -/
def artifactCount (res : CycleResult) : ℕ :=
  if res.video_id.isSome then 1 else 0

/-- Case analysis of one cycle: the returned dict is the failure dict for
some message, or the success dict for the uploaded video. -/
theorem run_automation_cycle_char (env : CycleEnv) (r : ℚ) (d : ℕ) :
    (∃ e, run_automation_cycle env r d = failedResult e) ∨
    (∃ u vd,
      env.createCompleteVideo (selectVideoType r) (selectDuration r d) =
        Except.ok vd ∧
      env.uploadVideo vd.video_path vd.title vd.description vd.tags
        "24" "public" vd.thumbnail_path = Except.ok u ∧
      run_automation_cycle env r d =
        successResult u (selectVideoType r) (selectDuration r d)) := by
  unfold run_automation_cycle run_automation_cycle_core
  cases h1 : env.initPipeline with
  | error e => exact Or.inl ⟨e, rfl⟩
  | ok _ =>
    cases h2 : env.initUploader with
    | error e => exact Or.inl ⟨e, rfl⟩
    | ok _ =>
      cases h3 : env.createCompleteVideo (selectVideoType r)
          (selectDuration r d) with
      | error e => exact Or.inl ⟨e, rfl⟩
      | ok vd =>
        cases h4 : env.uploadVideo vd.video_path vd.title vd.description
            vd.tags "24" "public" vd.thumbnail_path with
        | error e => exact Or.inl ⟨e, by simp [h4]⟩
        | ok u => exact Or.inr ⟨u, vd, rfl, h4, by simp [h4]⟩

/-- Claim C1: every behaviour of the collaborators yields a returned dict
(totality is the type of `run_automation_cycle`); the dict is the success
dict with no error — possible only when every collaborator call succeeded —
or the failure dict carrying the message of the collaborator that raised. -/
theorem c1_cycle_never_raises (env : CycleEnv) (r : ℚ) (d : ℕ) :
    ((run_automation_cycle env r d).status = "success" ∧
      (run_automation_cycle env r d).error = none ∧
      env.initPipeline = Except.ok () ∧ env.initUploader = Except.ok () ∧
      ∃ vd u, env.createCompleteVideo (selectVideoType r)
          (selectDuration r d) = Except.ok vd ∧
        env.uploadVideo vd.video_path vd.title vd.description vd.tags
          "24" "public" vd.thumbnail_path = Except.ok u) ∨
    ((run_automation_cycle env r d).status = "failed" ∧
      ∃ e, (run_automation_cycle env r d).error = some e ∧
        (env.initPipeline = Except.error e ∨
         env.initUploader = Except.error e ∨
         env.createCompleteVideo (selectVideoType r) (selectDuration r d) =
           Except.error e ∨
         ∃ vd, env.createCompleteVideo (selectVideoType r)
             (selectDuration r d) = Except.ok vd ∧
           env.uploadVideo vd.video_path vd.title vd.description vd.tags
             "24" "public" vd.thumbnail_path = Except.error e)) := by
  unfold run_automation_cycle run_automation_cycle_core
  cases h1 : env.initPipeline with
  | error e => exact Or.inr ⟨rfl, e, rfl, Or.inl rfl⟩
  | ok _ =>
    cases h2 : env.initUploader with
    | error e => exact Or.inr ⟨rfl, e, rfl, Or.inr (Or.inl rfl)⟩
    | ok _ =>
      cases h3 : env.createCompleteVideo (selectVideoType r)
          (selectDuration r d) with
      | error e => exact Or.inr ⟨rfl, e, rfl, Or.inr (Or.inr (Or.inl rfl))⟩
      | ok vd =>
        cases h4 : env.uploadVideo vd.video_path vd.title vd.description
            vd.tags "24" "public" vd.thumbnail_path with
        | error e =>
          refine Or.inr ⟨?_, e, ?_,
            Or.inr (Or.inr (Or.inr ⟨vd, rfl, h4⟩))⟩ <;>
            simp [h4, failedResult]
        | ok u =>
          refine Or.inl ⟨?_, ?_, rfl, rfl, vd, u, rfl, h4⟩ <;>
            simp [h4, successResult]

/-- Claim C4: provided the publish collaborator returns non-empty identifiers
(its contract), a cycle-result dict has `status = "success"` iff it carries a
non-empty `video_id` and `video_url`; it carries an `error` iff
`status = "failed"`; and a failure dict carries no artifact data. -/
theorem c4_success_iff_artifact (env : CycleEnv) (r : ℚ) (d : ℕ)
    (h : ∀ a b c ts e f g u, env.uploadVideo a b c ts e f g = Except.ok u →
      u.video_id ≠ "" ∧ u.video_url ≠ "") :
    ((run_automation_cycle env r d).status = "success" ↔
      (∃ vid, (run_automation_cycle env r d).video_id = some vid ∧
        vid ≠ "") ∧
      (∃ vurl, (run_automation_cycle env r d).video_url = some vurl ∧
        vurl ≠ "")) ∧
    ((run_automation_cycle env r d).error ≠ none ↔
      (run_automation_cycle env r d).status = "failed") ∧
    ((run_automation_cycle env r d).status = "failed" →
      (run_automation_cycle env r d).video_id = none ∧
      (run_automation_cycle env r d).video_url = none ∧
      (run_automation_cycle env r d).title = none) := by
  rcases run_automation_cycle_char env r d with ⟨e, he⟩ | ⟨u, vd, h3, h4, hu⟩
  · rw [he]
    refine ⟨?_, ?_, ?_⟩ <;> simp [failedResult]
  · rw [hu]
    obtain ⟨hid, hurl⟩ := h _ _ _ _ _ _ _ u h4
    refine ⟨?_, ?_, ?_⟩ <;> simp [successResult, hid, hurl]

/-- Witness for C4 at a concrete collaborator behaviour. -/
def sampleVideoData : VideoData :=
  { video_path := "outputs/videos/main_1.mp4",
    thumbnail_path := "outputs/thumbnails/main_1.png",
    audio_path := "outputs/audio/main_1.mp3",
    title := "T1", description := "D1", tags := ["horror"],
    video_type := "main" }

/-- A concrete successful upload response, used by witnesses. -/
def sampleUpload : UploadResult :=
  { video_id := "abc123",
    video_url := "https://www.youtube.com/watch?v=abc123",
    title := "T1", status := "success" }

/-- A concrete collaborator environment in which every call succeeds. -/
def sampleEnv : CycleEnv :=
  { initPipeline := Except.ok (), initUploader := Except.ok (),
    createCompleteVideo := fun _ _ => Except.ok sampleVideoData,
    uploadVideo := fun _ _ _ _ _ _ _ => Except.ok sampleUpload }

/-- Witness for C4: the error/status equivalence evaluated at the concrete
all-success environment. -/
theorem c4_witness :
    (run_automation_cycle sampleEnv (1/2) 3).error ≠ none ↔
      (run_automation_cycle sampleEnv (1/2) 3).status = "failed" :=
  (c4_success_iff_artifact sampleEnv (1/2) 3 (by
    intro a b c ts e f g u hu
    rw [show sampleEnv.uploadVideo a b c ts e f g = Except.ok sampleUpload
      from rfl] at hu
    cases hu
    exact ⟨by decide, by decide⟩)).2.1

/-- Claim C5: viewing the `random.random()` draw `r` and the
`random.randint(2, 5)` draw `d` as injected inputs, the cycle picks type
`"main"` exactly on `r < 0.7` (a 0.7-probability event for `r` uniform on
`[0, 1)`), in which case the duration is the injected draw `d ∈ [2, 5]`, one
`randint` draw is consumed, and the script word-count target is
`duration * 150`; otherwise the type is `"short"` with fixed duration 1 and
no `randint` draw. -/
theorem c5_selection_policy (r : ℚ) (d : ℕ) (h0 : 0 ≤ r) (h1 : r < 1)
    (hd2 : 2 ≤ d) (hd5 : d ≤ 5) :
    (selectVideoType r = "main" ↔ r < 7/10) ∧
    (selectVideoType r = "main" ∨ selectVideoType r = "short") ∧
    (r < 7/10 →
      selectVideoType r = "main" ∧ selectDuration r d = d ∧
      2 ≤ selectDuration r d ∧ selectDuration r d ≤ 5 ∧
      durationDraws r = 1 ∧
      scriptWordTarget (selectVideoType r) (selectDuration r d) =
        some (selectDuration r d * 150)) ∧
    (¬ r < 7/10 →
      selectVideoType r = "short" ∧ selectDuration r d = 1 ∧
      durationDraws r = 0) := by
  by_cases hr : r < 7/10 <;>
    simp [selectVideoType, selectDuration, durationDraws, scriptWordTarget,
      hr, hd2, hd5]

/-- Witness for C5 at the concrete draws `r = 1/2`, `d = 3`. -/
theorem c5_witness : selectVideoType (1/2 : ℚ) = "main" :=
  ((c5_selection_policy (1/2) 3 (by norm_num) (by norm_num) (by norm_num)
    (by norm_num)).2.2.1 (by norm_num)).1

/-- A collaborator environment in which `YouTubeUploader()` raises, as it
does when the OAuth credentials are missing (`youtube_uploader.py` lines
26-27, reached from inside the `try` at `main.py` lines 19-22). -/
def sampleFailEnv : CycleEnv :=
  { initPipeline := Except.ok (),
    initUploader := Except.error
      "Missing required YouTube OAuth credentials in environment variables",
    createCompleteVideo := fun _ _ => Except.ok sampleVideoData,
    uploadVideo := fun _ _ _ _ _ _ _ => Except.ok sampleUpload }

/-- Counterexample to claim C10 as stated: a cycle in which the uploader
constructor raises makes zero orchestration calls, not exactly one — the
exception at `main.py` line 22 reaches the `except` clause before
`create_complete_video` is ever called. -/
theorem c10_counterexample :
    (run_automation_cycle_core sampleFailEnv (1/2) 3).2.1 = 0 ∧
    ¬ (run_automation_cycle_core sampleFailEnv (1/2) 3).2.1 = 1 := by
  constructor
  · rfl
  · intro h
    exact absurd h (by decide)

/-- Claim C10 as amended: every cycle makes at most one orchestration call
and at most as many publish calls as orchestration calls (hence at most
one), and the returned dict describes at most one published artifact; a
success status forces exactly one orchestration call, one publish call and
one artifact; and whenever the two component constructions succeed the
orchestration call happens exactly once, with the selected type and
duration as arguments.  No second (derived) artifact is ever generated or
published in any cycle. -/
theorem c10_at_most_one_artifact (env : CycleEnv) (r : ℚ) (d : ℕ) :
    (run_automation_cycle_core env r d).2.1 ≤ 1 ∧
    (run_automation_cycle_core env r d).2.2.1 ≤
      (run_automation_cycle_core env r d).2.1 ∧
    artifactCount (run_automation_cycle env r d) ≤ 1 ∧
    ((run_automation_cycle env r d).status = "success" →
      artifactCount (run_automation_cycle env r d) = 1 ∧
      (run_automation_cycle_core env r d).2.1 = 1 ∧
      (run_automation_cycle_core env r d).2.2.1 = 1) ∧
    (env.initPipeline = Except.ok () → env.initUploader = Except.ok () →
      (run_automation_cycle_core env r d).2.1 = 1 ∧
      (run_automation_cycle_core env r d).2.2.2 =
        some (selectVideoType r, selectDuration r d)) := by
  unfold run_automation_cycle run_automation_cycle_core
  cases h1 : env.initPipeline with
  | error e => refine ⟨?_, ?_, ?_, ?_, ?_⟩ <;>
      simp [artifactCount, failedResult]
  | ok _ =>
    cases h2 : env.initUploader with
    | error e => refine ⟨?_, ?_, ?_, ?_, ?_⟩ <;>
        simp [artifactCount, failedResult]
    | ok _ =>
      cases h3 : env.createCompleteVideo (selectVideoType r)
          (selectDuration r d) with
      | error e => refine ⟨?_, ?_, ?_, ?_, ?_⟩ <;>
          simp [artifactCount, failedResult]
      | ok vd =>
        cases h4 : env.uploadVideo vd.video_path vd.title vd.description
            vd.tags "24" "public" vd.thumbnail_path with
        | error e => refine ⟨?_, ?_, ?_, ?_, ?_⟩ <;>
            simp [h4, artifactCount, failedResult]
        | ok u => refine ⟨?_, ?_, ?_, ?_, ?_⟩ <;>
            simp [h4, artifactCount, successResult]

/-- Witness for the amended C10: in the concrete all-success environment the
construction-success conjunct yields exactly one orchestration call. -/
theorem c10_amended_witness :
    (run_automation_cycle_core sampleEnv (1/2) 3).2.1 = 1 :=
  ((c10_at_most_one_artifact sampleEnv (1/2) 3).2.2.2.2 rfl rfl).1

/-! ### `scheduler.py`: run statistics (`AutomationScheduler.job_wrapper`) -/

/-- The three counters initialized in `AutomationScheduler.__init__`
(`scheduler.py` lines 33-35). -/
structure Stats where
  total_runs : ℕ
  successful_runs : ℕ
  failed_runs : ℕ
deriving Repr, DecidableEq

/-- What the call `run_automation_cycle()` inside `job_wrapper` can do, seen
from `scheduler.py` lines 45-60: raise an exception, or return a Python
value — `None` or a dict, a dict being a string-keyed association list. -/
inductive PyOutcome where
  | exn (msg : String)
  | val (v : Option (List (String × String)))
deriving Repr, DecidableEq

/-- Python `dict.get`: the value stored under `key`, `None` if absent. -/
def dictGet : List (String × String) → String → Option String
  | [], _ => none
  | (k, v) :: rest, key => if k = key then some v else dictGet rest key

/-- The condition `result and result.get('status') == 'success'` of
`scheduler.py` line 49: `None` and the empty dict are falsy; otherwise the
value under `'status'` must equal `'success'`. -/
def wrapperSuccess (v : Option (List (String × String))) : Bool :=
  match v with
  | none => false
  | some dct =>
    if dct.isEmpty then false
    else decide (dictGet dct "status" = some "success")

/-- `AutomationScheduler.job_wrapper` (`scheduler.py` lines 37-67) restricted
to its effect on the counters: `total_runs` is incremented on entry (line
39); the `try` block increments `successful_runs` when the returned value
passes the line-49 test and `failed_runs` otherwise (lines 49-56); the
`except` clause increments `failed_runs` (lines 58-60). -/
def job_wrapper (s : Stats) (o : PyOutcome) : Stats :=
  let s1 : Stats := { s with total_runs := s.total_runs + 1 }
  match o with
  | .exn _ => { s1 with failed_runs := s1.failed_runs + 1 }
  | .val v =>
    if wrapperSuccess v then
      { s1 with successful_runs := s1.successful_runs + 1 }
    else
      { s1 with failed_runs := s1.failed_runs + 1 }

/-- The counters after a sequence of cycles, starting from the zero-initial
state of `AutomationScheduler.__init__`. -/
def runStats (outs : List PyOutcome) : Stats :=
  outs.foldl job_wrapper ⟨0, 0, 0⟩

theorem job_wrapper_step (s : Stats) (o : PyOutcome) :
    (job_wrapper s o).total_runs = s.total_runs + 1 ∧
    (((job_wrapper s o).successful_runs = s.successful_runs + 1 ∧
      (job_wrapper s o).failed_runs = s.failed_runs) ∨
     ((job_wrapper s o).failed_runs = s.failed_runs + 1 ∧
      (job_wrapper s o).successful_runs = s.successful_runs)) := by
  cases o with
  | exn m => exact ⟨rfl, Or.inr ⟨rfl, rfl⟩⟩
  | val v =>
    by_cases hv : wrapperSuccess v = true
    · simp [job_wrapper, hv]
    · simp [job_wrapper, hv]

theorem runStats_append (outs : List PyOutcome) (s : Stats) :
    (outs.foldl job_wrapper s).total_runs = s.total_runs + outs.length ∧
    (outs.foldl job_wrapper s).total_runs + s.successful_runs +
        s.failed_runs =
      (outs.foldl job_wrapper s).successful_runs +
        (outs.foldl job_wrapper s).failed_runs + s.total_runs := by
  induction outs generalizing s with
  | nil => simp only [List.foldl_nil, List.length_nil]; omega
  | cons o rest ih =>
    obtain ⟨ht, hstep⟩ := job_wrapper_step s o
    obtain ⟨iht, ihsum⟩ := ih (job_wrapper s o)
    simp only [List.foldl_cons, List.length_cons] at *
    rcases hstep with ⟨h1, h2⟩ | ⟨h1, h2⟩ <;> omega

/-- Claim C2: after any sequence of N completed cycles (successes, failures
and unexpected exceptions alike), starting from the zero counters,
`total_runs = successful_runs + failed_runs = N`; and each single cycle
increments `total_runs` by one together with exactly one of
`successful_runs`/`failed_runs`, the other unchanged (so all three counters
are non-decreasing). -/
theorem c2_statistics_invariant (outs : List PyOutcome) :
    ((runStats outs).total_runs = outs.length ∧
     (runStats outs).total_runs =
       (runStats outs).successful_runs + (runStats outs).failed_runs) ∧
    ∀ s o, (job_wrapper s o).total_runs = s.total_runs + 1 ∧
      (((job_wrapper s o).successful_runs = s.successful_runs + 1 ∧
        (job_wrapper s o).failed_runs = s.failed_runs) ∨
       ((job_wrapper s o).failed_runs = s.failed_runs + 1 ∧
        (job_wrapper s o).successful_runs = s.successful_runs)) := by
  refine ⟨?_, job_wrapper_step⟩
  have h := runStats_append outs ⟨0, 0, 0⟩
  dsimp only at h
  unfold runStats
  omega

/-- Claim C9: one `job_wrapper` step increments `successful_runs` exactly
when the value returned by `run_automation_cycle` is a dict whose
`'status'` entry is `'success'`; every other outcome — a failure dict, a
missing or non-`'success'` status, `None`, or an exception — increments
`failed_runs` instead. -/
theorem c9_success_counting (s : Stats) (o : PyOutcome) :
    ((job_wrapper s o).successful_runs = s.successful_runs + 1 ↔
      ∃ dct, o = PyOutcome.val (some dct) ∧
        dictGet dct "status" = some "success") ∧
    ((job_wrapper s o).successful_runs = s.successful_runs ↔
      (job_wrapper s o).failed_runs = s.failed_runs + 1) := by
  have hkey : ∀ v : Option (List (String × String)),
      wrapperSuccess v = true ↔
      ∃ dct, v = some dct ∧ dictGet dct "status" = some "success" := by
    intro v
    cases v with
    | none => simp [wrapperSuccess]
    | some dct =>
      cases dct with
      | nil => simp [wrapperSuccess, dictGet]
      | cons p rest => simp [wrapperSuccess]
  cases o with
  | exn m => simp [job_wrapper]
  | val v =>
    by_cases hv : wrapperSuccess v = true
    · obtain ⟨dct, hd, hs⟩ := (hkey v).mp hv
      subst hd
      have hjw : job_wrapper s (PyOutcome.val (some dct)) =
          { s with total_runs := s.total_runs + 1,
                   successful_runs := s.successful_runs + 1 } := by
        unfold job_wrapper
        dsimp only
        rw [if_pos hv]
      rw [hjw]
      dsimp only
      refine ⟨⟨fun _ => ⟨dct, rfl, hs⟩, fun _ => rfl⟩, ?_⟩
      constructor <;> intro h <;> omega
    · have hjw : job_wrapper s (PyOutcome.val v) =
          { s with total_runs := s.total_runs + 1,
                   failed_runs := s.failed_runs + 1 } := by
        unfold job_wrapper
        dsimp only
        rw [if_neg hv]
      rw [hjw]
      dsimp only
      constructor
      · constructor
        · intro h; omega
        · rintro ⟨dct, hd, hs⟩
          injection hd with hd'
          exact absurd ((hkey v).mpr ⟨dct, hd', hs⟩) hv
      · simp

/-- Witness for C9: a dict with `status = "success"` bumps the success
counter from the initial state. -/
theorem c9_witness :
    (job_wrapper ⟨0, 0, 0⟩
        (PyOutcome.val (some [("status", "success")]))).successful_runs =
      (0 : ℕ) + 1 :=
  (c9_success_counting ⟨0, 0, 0⟩
    (PyOutcome.val (some [("status", "success")]))).1.mpr
    ⟨[("status", "success")], rfl, by decide⟩

/-! ### `video_pipeline.py`: the four-stage orchestrator -/

/-- The dict returned by `generate_horror_script`
(`video_pipeline.py` lines 24-88). -/
structure ScriptData where
  title : String
  narration : String
  description : String
  tags : List String
deriving Repr, DecidableEq

/-- The four generation stages of `create_complete_video`
(`video_pipeline.py` lines 214-224). -/
inductive Stage where
  | script
  | audio
  | video
  | thumbnail
deriving Repr, DecidableEq

/-- Behaviour of the four stage calls made by `create_complete_video`:
`generate_horror_script(video_type, duration_minutes)`,
`generate_audio(text, filename)`, `create_video_with_ffmpeg(audio_path,
video_type, filename)` and `generate_thumbnail(title, filename)`; each may
raise.  Audio, video and thumbnail calls return the path of the produced
asset. -/
structure PipelineEnv where
  generate_horror_script : String → ℕ → Except String ScriptData
  generate_audio : String → String → Except String String
  create_video_with_ffmpeg : String → String → String → Except String String
  generate_thumbnail : String → String → Except String String

/-- `VideoPipeline.create_complete_video` (`video_pipeline.py` lines
200-235), instrumented with the ordered list of stages that actually ran.
The shared `base_filename` (derived from the current timestamp, line
211-212) is injected; a stage that raises aborts the remaining stages and
the exception propagates to the caller as `Except.error`. -/
def create_complete_video (env : PipelineEnv) (video_type : String)
    (duration_minutes : ℕ) (base_filename : String) :
    List Stage × Except String VideoData :=
  match env.generate_horror_script video_type duration_minutes with
  | .error e => ([Stage.script], .error e)
  | .ok s =>
    match env.generate_audio s.narration base_filename with
    | .error e => ([Stage.script, Stage.audio], .error e)
    | .ok audio_path =>
      match env.create_video_with_ffmpeg audio_path video_type
          base_filename with
      | .error e => ([Stage.script, Stage.audio, Stage.video], .error e)
      | .ok video_path =>
        match env.generate_thumbnail s.title base_filename with
        | .error e =>
          ([Stage.script, Stage.audio, Stage.video, Stage.thumbnail],
            .error e)
        | .ok thumbnail_path =>
          ([Stage.script, Stage.audio, Stage.video, Stage.thumbnail],
            .ok { video_path := video_path, thumbnail_path := thumbnail_path,
                  audio_path := audio_path, title := s.title,
                  description := s.description, tags := s.tags,
                  video_type := video_type })

/-- Claim C6: the four stages run in the fixed order script → audio →
video → thumbnail; the audio stage consumes the script's narration, the
video stage the audio path (plus the static type and filename), the
thumbnail stage the title; a failing stage stops the pipeline (later stages
never run, no partial dict is returned) and its exception propagates; when
all four succeed the returned dict assembles exactly the four stage
outputs. -/
theorem c6_stage_sequencing (env : PipelineEnv) (video_type : String)
    (duration_minutes : ℕ) (base_filename : String) :
    (∀ e, env.generate_horror_script video_type duration_minutes =
        Except.error e →
      create_complete_video env video_type duration_minutes base_filename =
        ([Stage.script], Except.error e)) ∧
    (∀ s, env.generate_horror_script video_type duration_minutes =
        Except.ok s →
      (∀ e, env.generate_audio s.narration base_filename = Except.error e →
        create_complete_video env video_type duration_minutes base_filename =
          ([Stage.script, Stage.audio], Except.error e)) ∧
      (∀ ap, env.generate_audio s.narration base_filename = Except.ok ap →
        (∀ e, env.create_video_with_ffmpeg ap video_type base_filename =
            Except.error e →
          create_complete_video env video_type duration_minutes
              base_filename =
            ([Stage.script, Stage.audio, Stage.video], Except.error e)) ∧
        (∀ vp, env.create_video_with_ffmpeg ap video_type base_filename =
            Except.ok vp →
          (∀ e, env.generate_thumbnail s.title base_filename =
              Except.error e →
            create_complete_video env video_type duration_minutes
                base_filename =
              ([Stage.script, Stage.audio, Stage.video, Stage.thumbnail],
                Except.error e)) ∧
          (∀ tp, env.generate_thumbnail s.title base_filename =
              Except.ok tp →
            create_complete_video env video_type duration_minutes
                base_filename =
              ([Stage.script, Stage.audio, Stage.video, Stage.thumbnail],
                Except.ok { video_path := vp, thumbnail_path := tp,
                            audio_path := ap, title := s.title,
                            description := s.description, tags := s.tags,
                            video_type := video_type }))))) := by
  refine ⟨fun e h1 => ?_, fun s h1 => ⟨fun e h2 => ?_, fun ap h2 =>
    ⟨fun e h3 => ?_, fun vp h3 => ⟨fun e h4 => ?_, fun tp h4 => ?_⟩⟩⟩⟩ <;>
    simp [create_complete_video, h1] <;>
    simp [h2] <;> simp [h3] <;> simp [h4]

/-- A concrete all-success pipeline environment, used by the C6 witness. -/
def samplePipelineEnv : PipelineEnv :=
  { generate_horror_script := fun _ _ =>
      Except.ok { title := "T1", narration := "N1", description := "D1",
                  tags := ["horror"] },
    generate_audio := fun _ fn => Except.ok ("outputs/audio/" ++ fn),
    create_video_with_ffmpeg := fun _ _ fn =>
      Except.ok ("outputs/videos/" ++ fn),
    generate_thumbnail := fun _ fn =>
      Except.ok ("outputs/thumbnails/" ++ fn) }

/-- Witness for C6: with every stage succeeding, all four stages run in
order and the complete dict is assembled. -/
theorem c6_witness :
    create_complete_video samplePipelineEnv "main" 3 "main_1" =
      ([Stage.script, Stage.audio, Stage.video, Stage.thumbnail],
        Except.ok { video_path := "outputs/videos/main_1",
                    thumbnail_path := "outputs/thumbnails/main_1",
                    audio_path := "outputs/audio/main_1", title := "T1",
                    description := "D1", tags := ["horror"],
                    video_type := "main" }) :=
  (((((c6_stage_sequencing samplePipelineEnv "main" 3 "main_1").2
    _ rfl).2 _ rfl).2 _ rfl).2 _ rfl)

/-! ### `youtube_uploader.py`: publish and best-effort thumbnail attach -/

/-- Behaviour of the external calls made by `YouTubeUploader.upload_video`
and `_upload_thumbnail`: `os.path.exists`, the `videos().insert(...)
.execute()` request (returning the new video id), and the
`thumbnails().set(...).execute()` request. -/
structure UploadEnv where
  fileExists : String → Bool
  insertVideo : String → String → String → List String → String → String →
    Except String String
  setThumbnail : String → String → Except String Unit

/-- `YouTubeUploader.upload_video` (`youtube_uploader.py` lines 45-111)
together with the outcome of the `_upload_thumbnail` call when one is made
(lines 102-104 guard it on a thumbnail path existing on disk).
`_upload_thumbnail` (lines 113-123) wraps its request in
`try/except`, so its outcome is recorded but never affects the first
component: the function returns the success dict whenever the video insert
succeeded. -/
def upload_video (env : UploadEnv) (video_path title description : String)
    (tags : List String) (category_id privacy_status : String)
    (thumbnail_path : Option String) :
    Except String UploadResult × Option (Except String Unit) :=
  if env.fileExists video_path then
    match env.insertVideo video_path title description tags category_id
        privacy_status with
    | .error e => (.error e, none)
    | .ok video_id =>
      let thumbOutcome : Option (Except String Unit) :=
        match thumbnail_path with
        | some tp =>
          if env.fileExists tp then some (env.setThumbnail video_id tp)
          else none
        | none => none
      (.ok { video_id := video_id,
             video_url := "https://www.youtube.com/watch?v=" ++ video_id,
             title := title, status := "success" }, thumbOutcome)
  else (.error ("Video file not found: " ++ video_path), none)

/-- Claim C7: once the primary video insert succeeds, `upload_video` returns
the success dict with the video's id and URL whatever the thumbnail-attach
call does — replacing the thumbnail-attach behaviour by any other (including
an always-raising one) leaves the returned dict unchanged, so a
thumbnail-attach failure never turns a successful upload, or the cycle built
on it, into a failure. -/
theorem c7_thumbnail_failure_swallowed (env : UploadEnv)
    (video_path title description : String) (tags : List String)
    (category_id privacy_status : String) (thumbnail_path : Option String)
    (vid : String) (hf : env.fileExists video_path = true)
    (hi : env.insertVideo video_path title description tags category_id
      privacy_status = Except.ok vid) :
    ((upload_video env video_path title description tags category_id
        privacy_status thumbnail_path).1 =
      Except.ok { video_id := vid,
                  video_url := "https://www.youtube.com/watch?v=" ++ vid,
                  title := title, status := "success" }) ∧
    (∀ g : String → String → Except String Unit,
      (upload_video { env with setThumbnail := g } video_path title
          description tags category_id privacy_status thumbnail_path).1 =
      (upload_video env video_path title description tags category_id
          privacy_status thumbnail_path).1) := by
  constructor
  · simp [upload_video, hf, hi]
  · intro g
    simp [upload_video, hf, hi]

/-- A concrete upload environment whose thumbnail attach always raises,
used by the C7 witness. -/
def sampleUploadEnv : UploadEnv :=
  { fileExists := fun _ => true,
    insertVideo := fun _ _ _ _ _ _ => Except.ok "abc123",
    setThumbnail := fun _ _ => Except.error "thumbnail attach failed" }

/-- Witness for C7: with an existing file, a succeeding insert and an
always-failing thumbnail attach, the returned dict is still the success
dict. -/
theorem c7_witness :
    (upload_video sampleUploadEnv "v.mp4" "T1" "D1" ["horror"] "24" "public"
        (some "t.png")).1 =
      Except.ok { video_id := "abc123",
                  video_url := "https://www.youtube.com/watch?v=abc123",
                  title := "T1", status := "success" } :=
  (c7_thumbnail_failure_swallowed sampleUploadEnv "v.mp4" "T1" "D1"
    ["horror"] "24" "public" (some "t.png") "abc123" rfl rfl).1

/-! ### `scheduler.py`: the timing loop (`AutomationScheduler.start`)

`start` (lines 69-100) optionally runs one cycle synchronously, then adds a
job with `IntervalTrigger(minutes=self.interval_minutes)` and
`max_instances=1` to a `BlockingScheduler` and starts it.  APScheduler
semantics for that configuration: the trigger fires at `epoch + k*interval`
for `k = 1, 2, ...` (fixed rate from the moment the scheduler starts), and a
fire that arrives while the single allowed job instance is still running is
skipped (`max_instances=1`), the job's next run time moving to the next
fire.  Time is modelled in abstract ticks; `dur n` is the duration of the
`n`-th executed cycle. -/

/-- Start time of the `n`-th cycle executed by the recurring job: the first
cycle starts at the first fire `epoch + interval`; afterwards the next cycle
starts at the earliest fire that is at least the previous cycle's completion
time and strictly after its start (earlier fires are skipped). -/
def startsFrom (epoch interval : ℕ) (dur : ℕ → ℕ) : ℕ → ℕ
  | 0 => epoch + interval
  | n + 1 =>
    max (startsFrom epoch interval dur n + interval)
      (epoch + interval *
        ((startsFrom epoch interval dur n + dur n - epoch + interval - 1) /
          interval))

/-- Start time of the `n`-th cycle executed by `AutomationScheduler.start`
(`scheduler.py` lines 69-100): with `run_immediately`, cycle 0 runs
synchronously at time 0 (line 84) and the scheduler — hence the trigger
epoch — starts only at its completion `dur 0`; otherwise the trigger epoch
is process start. -/
def cycleStarts (run_immediately : Bool) (interval : ℕ) (dur : ℕ → ℕ)
    (n : ℕ) : ℕ :=
  if run_immediately then
    match n with
    | 0 => 0
    | Nat.succ m => startsFrom (dur 0) interval (fun k => dur (k + 1)) m
  else startsFrom 0 interval dur n

theorem ceil_bounds (x i : ℕ) (hi : 1 ≤ i) :
    x ≤ i * ((x + i - 1) / i) ∧ i * ((x + i - 1) / i) ≤ x + i - 1 := by
  obtain ⟨t, h1, h2, h3⟩ :
      ∃ t, i * ((x + i - 1) / i) = t ∧
        t + (x + i - 1) % i = x + i - 1 ∧ (x + i - 1) % i < i :=
    ⟨_, rfl, Nat.div_add_mod _ _, Nat.mod_lt _ hi⟩
  rw [h1]
  omega

theorem startsFrom_ge (epoch interval : ℕ) (dur : ℕ → ℕ) (n : ℕ) :
    epoch + interval ≤ startsFrom epoch interval dur n := by
  induction n with
  | zero => exact le_refl _
  | succ m ih =>
    have h := le_max_left (startsFrom epoch interval dur m + interval)
      (epoch + interval *
        ((startsFrom epoch interval dur m + dur m - epoch + interval - 1) /
          interval))
    have hdef : startsFrom epoch interval dur (m + 1) =
        max (startsFrom epoch interval dur m + interval)
          (epoch + interval *
            ((startsFrom epoch interval dur m + dur m - epoch + interval -
              1) / interval)) := rfl
    omega

theorem startsFrom_step (epoch interval : ℕ) (dur : ℕ → ℕ) (n : ℕ)
    (hi : 1 ≤ interval) :
    startsFrom epoch interval dur n + dur n ≤
      startsFrom epoch interval dur (n + 1) ∧
    startsFrom epoch interval dur (n + 1) ≤
      startsFrom epoch interval dur n + dur n + interval := by
  have hs := startsFrom_ge epoch interval dur n
  obtain ⟨hc1, hc2⟩ :=
    ceil_bounds (startsFrom epoch interval dur n + dur n - epoch) interval hi
  have hdef : startsFrom epoch interval dur (n + 1) =
      max (startsFrom epoch interval dur n + interval)
        (epoch + interval *
          ((startsFrom epoch interval dur n + dur n - epoch + interval - 1) /
            interval)) := rfl
  rw [hdef]
  set T := interval *
    ((startsFrom epoch interval dur n + dur n - epoch + interval - 1) /
      interval) with hT
  clear_value T
  constructor
  · refine le_trans ?_ (le_max_right (startsFrom epoch interval dur n +
      interval) (epoch + T))
    omega
  · refine max_le ?_ ?_ <;> omega

/-- Counterexample to claim C3: with `interval = 2` ticks and every cycle
lasting 3 ticks (a duration overrun), the first recurring cycle runs over
`[2, 5]`; the fire at tick 4 is skipped and the next cycle starts at the
next fire, tick 6 — not at completion + interval = 7 as the claim states. -/
theorem c3_counterexample :
    cycleStarts false 2 (fun _ => 3) 1 ≠
      cycleStarts false 2 (fun _ => 3) 0 + 3 + 2 := by
  decide

/-- Claim C3 as amended: for every trigger epoch choice (`run_immediately`
true or false), positive interval and any cycle durations, no two cycle
executions overlap — each cycle starts no earlier than the previous cycle's
completion — and the next cycle starts within one interval of that
completion, at the first non-skipped fire; the overrun pushes the next start
to a later fire rather than exactly `interval` after completion. -/
theorem c3_no_overlap (run_immediately : Bool) (interval : ℕ)
    (dur : ℕ → ℕ) (n : ℕ) (hi : 1 ≤ interval) :
    cycleStarts run_immediately interval dur n + dur n ≤
      cycleStarts run_immediately interval dur (n + 1) ∧
    cycleStarts run_immediately interval dur (n + 1) ≤
      cycleStarts run_immediately interval dur n + dur n + interval := by
  cases run_immediately with
  | false =>
    simpa [cycleStarts] using startsFrom_step 0 interval dur n hi
  | true =>
    cases n with
    | zero =>
      have h0 : cycleStarts true interval dur 0 = 0 := rfl
      have h1 : cycleStarts true interval dur 1 = dur 0 + interval := rfl
      rw [h0, h1]
      omega
    | succ m =>
      have h0 : cycleStarts true interval dur (m + 1) =
          startsFrom (dur 0) interval (fun k => dur (k + 1)) m := rfl
      have h1 : cycleStarts true interval dur (m + 2) =
          startsFrom (dur 0) interval (fun k => dur (k + 1)) (m + 1) := rfl
      have hstep :=
        startsFrom_step (dur 0) interval (fun k => dur (k + 1)) m hi
      rw [h0, h1]
      simpa using hstep

/-- Witness for the amended C3 at a concrete overrunning schedule: the cycle
starting at tick 6 does not begin before the previous cycle (ticks 2-5)
completes. -/
theorem c3_witness :
    cycleStarts false 2 (fun _ => 3) 0 + 3 ≤ cycleStarts false 2 (fun _ => 3) 1 :=
  (c3_no_overlap false 2 (fun _ => 3) 0 (by decide)).1

/-- Claim C8: with `run_immediately = true` the first cycle starts at
process start (time 0), before the recurring schedule begins — the first
timed start is only at `dur 0 + interval`; with `run_immediately = false`
the first cycle starts one full interval after process start. -/
theorem c8_first_cycle (interval : ℕ) (dur : ℕ → ℕ) :
    cycleStarts true interval dur 0 = 0 ∧
    cycleStarts true interval dur 1 = dur 0 + interval ∧
    cycleStarts false interval dur 0 = interval := by
  refine ⟨rfl, rfl, ?_⟩
  simp [cycleStarts, startsFrom]
